import Mathlib

/-!
Verification of the real-time notification fan-out layer of the Core API
(a WebSocket manager for a proxy process plus worker game-server processes),
together with the punishment-execution service that drives it.

The definitions below are a shallow embedding of `src/ws/server.ts`
(the `ws`-library `WebSocketManager`, the implementation wired into the
entry point via `wsManager.attach(server)`) and of
`PunishmentService.execute` from the punishment service.  Transport
writes are modelled as a list of `(socket id, payload string)` pairs;
the event-driven handlers (`connection`, `message`, `pong`, `close`,
`error`, the 30-second keepalive interval) are modelled as a step
function on the registry state.
-/

/-- Role tag resolved at handshake time: `proxy` = Bungee, `server` = Bukkit/Paper. -/
inductive ServerType
  | proxy
  | server
deriving DecidableEq, Repr

namespace WebSocket

/-- Ready-state constant of the `ws` library: an open, sendable socket. -/
def OPEN : Nat := 1

end WebSocket

/-- One client socket as tracked by the manager: `isAlive` is the
keepalive flag, `serverType` the resolved role (absent until the
handshake resolves it), `readyState` the transport state. -/
structure AuthenticatedWebSocket where
  id : Nat
  isAlive : Bool
  serverType : Option ServerType
  serverName : String
  authenticated : Bool
  readyState : Nat
deriving DecidableEq, Repr

/-- Outbound frame shapes produced by the manager (`JSON.stringify` input). -/
inductive WsMessage
  | CONNECTED (serverType : ServerType) (serverName : String)
  | ERROR (message : String)
  | GRANT_CHANGE (playerUuid : String) (timestamp : String)
  | RANK_CHANGE (rankId : String) (timestamp : String)
  | PLAYER_UPDATE (playerUuid : String) (timestamp : String)
  | PUNISH_EXECUTE (playerUuid : String) (punishmentType : String)
      (reason : Option String) (timestamp : String)
  | PRIVATE_MESSAGE (targetPlayer : String) (senderName : String)
      (message : String) (timestamp : String)
  | RAW (payload : String)
deriving DecidableEq, Repr

/-- Wire text of a role tag. -/
def serverTypeString : ServerType → String
  | ServerType.proxy => "proxy"
  | ServerType.server => "server"

/-- JSON rendering of a nullable string field. -/
def jsonStringOrNull : Option String → String
  | none => "null"
  | some s => "\"" ++ s ++ "\""

/-- Model of `JSON.stringify` on the frames the manager sends. -/
def stringify : WsMessage → String
  | WsMessage.CONNECTED st name =>
      "\x7b\"type\":\"CONNECTED\",\"message\":\"Connected to Core API WebSocket\",\"serverType\":\""
        ++ serverTypeString st ++ "\",\"serverName\":\"" ++ name ++ "\"\x7d"
  | WsMessage.ERROR m =>
      "\x7b\"type\":\"ERROR\",\"message\":\"" ++ m ++ "\"\x7d"
  | WsMessage.GRANT_CHANGE p ts =>
      "\x7b\"type\":\"GRANT_CHANGE\",\"playerUuid\":\"" ++ p
        ++ "\",\"timestamp\":\"" ++ ts ++ "\"\x7d"
  | WsMessage.RANK_CHANGE r ts =>
      "\x7b\"type\":\"RANK_CHANGE\",\"rankId\":\"" ++ r
        ++ "\",\"timestamp\":\"" ++ ts ++ "\"\x7d"
  | WsMessage.PLAYER_UPDATE p ts =>
      "\x7b\"type\":\"PLAYER_UPDATE\",\"playerUuid\":\"" ++ p
        ++ "\",\"timestamp\":\"" ++ ts ++ "\"\x7d"
  | WsMessage.PUNISH_EXECUTE p t r ts =>
      "\x7b\"type\":\"PUNISH_EXECUTE\",\"playerUuid\":\"" ++ p
        ++ "\",\"punishmentType\":\"" ++ t ++ "\",\"reason\":" ++ jsonStringOrNull r
        ++ ",\"timestamp\":\"" ++ ts ++ "\"\x7d"
  | WsMessage.PRIVATE_MESSAGE tp sn m ts =>
      "\x7b\"type\":\"PRIVATE_MESSAGE\",\"targetPlayer\":\"" ++ tp
        ++ "\",\"senderName\":\"" ++ sn ++ "\",\"message\":\"" ++ m
        ++ "\",\"timestamp\":\"" ++ ts ++ "\"\x7d"
  | WsMessage.RAW payload => payload

/-- Identifiers of the members of a registry state (`this.clients`). -/
def clientIds (clients : List AuthenticatedWebSocket) : List Nat :=
  clients.map (fun c => c.id)

/-- Source `broadcast(message, excludeClient?)`: serialize once, then write to
every client other than `excludeClient` whose `readyState` is `OPEN`. -/
def broadcast (clients : List AuthenticatedWebSocket) (message : WsMessage)
    (excludeClient : Option Nat) : List (Nat × String) :=
  let data := stringify message
  (clients.filter (fun c =>
      decide (excludeClient ≠ some c.id) && decide (c.readyState = WebSocket.OPEN))).map
    (fun c => (c.id, data))

/-- Source `sendToServers(message)`: write to every open client whose
`serverType` is `server` (Bukkit/Paper), excluding the proxy. -/
def sendToServers (clients : List AuthenticatedWebSocket) (message : WsMessage) :
    List (Nat × String) :=
  let data := stringify message
  (clients.filter (fun c =>
      decide (c.serverType = some ServerType.server)
        && decide (c.readyState = WebSocket.OPEN))).map
    (fun c => (c.id, data))

/-- Source `sendToProxy(message)`: write to every open client whose
`serverType` is `proxy` (Bungee). -/
def sendToProxy (clients : List AuthenticatedWebSocket) (message : WsMessage) :
    List (Nat × String) :=
  let data := stringify message
  (clients.filter (fun c =>
      decide (c.serverType = some ServerType.proxy)
        && decide (c.readyState = WebSocket.OPEN))).map
    (fun c => (c.id, data))

/-- Source `sendToType(type, message)`. -/
def sendToType (clients : List AuthenticatedWebSocket) (t : ServerType)
    (message : WsMessage) : List (Nat × String) :=
  let data := stringify message
  (clients.filter (fun c =>
      decide (c.serverType = some t) && decide (c.readyState = WebSocket.OPEN))).map
    (fun c => (c.id, data))

/-- Source `notifyGrantChange(playerUuid)`; the timestamp is taken as a
parameter in place of `new Date().toISOString()`. -/
def notifyGrantChange (clients : List AuthenticatedWebSocket)
    (playerUuid ts : String) : List (Nat × String) :=
  sendToServers clients (WsMessage.GRANT_CHANGE playerUuid ts)

/-- Source `notifyRankChange(rankId)`: a `broadcast` with no excluded client. -/
def notifyRankChange (clients : List AuthenticatedWebSocket)
    (rankId ts : String) : List (Nat × String) :=
  broadcast clients (WsMessage.RANK_CHANGE rankId ts) none

/-- Source `notifyPlayerUpdate(playerUuid)`. -/
def notifyPlayerUpdate (clients : List AuthenticatedWebSocket)
    (playerUuid ts : String) : List (Nat × String) :=
  sendToServers clients (WsMessage.PLAYER_UPDATE playerUuid ts)

/-- Source `notifyPunishmentExecute(playerUuid, punishmentType, reason)`. -/
def notifyPunishmentExecute (clients : List AuthenticatedWebSocket)
    (playerUuid punishmentType : String) (reason : Option String) (ts : String) :
    List (Nat × String) :=
  sendToProxy clients (WsMessage.PUNISH_EXECUTE playerUuid punishmentType reason ts)

/-- Source `sendPrivateMessage(targetPlayer, senderName, message)`. -/
def sendPrivateMessage (clients : List AuthenticatedWebSocket)
    (targetPlayer senderName message ts : String) : List (Nat × String) :=
  sendToServers clients (WsMessage.PRIVATE_MESSAGE targetPlayer senderName message ts)

/-- Domain events the CRUD layer dispatches through the manager. -/
inductive DomainEvent
  | GrantChanged (playerUuid : String)
  | RankChanged (rankId : String)
  | PlayerUpdated (playerUuid : String)
  | PunishmentExecute (playerUuid : String) (punishmentType : String)
      (reason : Option String)
  | PrivateMessage (targetPlayer : String) (senderName : String) (message : String)
deriving DecidableEq, Repr

/-- Frame sent for a domain event. -/
def eventMessage (e : DomainEvent) (ts : String) : WsMessage :=
  match e with
  | DomainEvent.GrantChanged p => WsMessage.GRANT_CHANGE p ts
  | DomainEvent.RankChanged r => WsMessage.RANK_CHANGE r ts
  | DomainEvent.PlayerUpdated p => WsMessage.PLAYER_UPDATE p ts
  | DomainEvent.PunishmentExecute p t r => WsMessage.PUNISH_EXECUTE p t r ts
  | DomainEvent.PrivateMessage tp sn m => WsMessage.PRIVATE_MESSAGE tp sn m ts

/-- Dispatching a domain event through the manager: each kind is routed by
the notify method the CRUD layer calls for it. -/
def dispatch (clients : List AuthenticatedWebSocket) (e : DomainEvent) (ts : String) :
    List (Nat × String) :=
  match e with
  | DomainEvent.GrantChanged p => notifyGrantChange clients p ts
  | DomainEvent.RankChanged r => notifyRankChange clients r ts
  | DomainEvent.PlayerUpdated p => notifyPlayerUpdate clients p ts
  | DomainEvent.PunishmentExecute p t r => notifyPunishmentExecute clients p t r ts
  | DomainEvent.PrivateMessage tp sn m => sendPrivateMessage clients tp sn m ts

/-- Recipient-role table of the specification (section 4.3): grant changes,
player updates and private messages go to open workers, rank changes to every
open connection, punishment executions to open proxies. -/
def recipientRole (e : DomainEvent) (c : AuthenticatedWebSocket) : Bool :=
  (match e with
   | DomainEvent.GrantChanged _ => decide (c.serverType = some ServerType.server)
   | DomainEvent.RankChanged _ => true
   | DomainEvent.PlayerUpdated _ => decide (c.serverType = some ServerType.server)
   | DomainEvent.PunishmentExecute _ _ _ => decide (c.serverType = some ServerType.proxy)
   | DomainEvent.PrivateMessage _ _ _ => decide (c.serverType = some ServerType.server))
    && decide (c.readyState = WebSocket.OPEN)

theorem countP_writes (p : AuthenticatedWebSocket → Bool) (data : String)
    (clients : List AuthenticatedWebSocket) (c : AuthenticatedWebSocket)
    (hnd : (clients.map (fun x => x.id)).Nodup) (hc : c ∈ clients) :
    ((clients.filter p).map (fun x => (x.id, data))).countP
        (fun w => decide (w.1 = c.id)) = if p c then 1 else 0 := by
  induction clients with
  | nil => cases hc
  | cons a rest ih =>
    simp only [List.map_cons, List.nodup_cons] at hnd
    rcases List.mem_cons.mp hc with h | h
    · subst h
      have hrest : ((rest.filter p).map (fun x => (x.id, data))).countP
          (fun w => decide (w.1 = c.id)) = 0 := by
        apply List.countP_eq_zero.mpr
        intro w hw
        rcases List.mem_map.mp hw with ⟨x, hx, rfl⟩
        have hxmem : x.id ∈ rest.map (fun y => y.id) :=
          List.mem_map.mpr ⟨x, List.mem_of_mem_filter hx, rfl⟩
        simp only [decide_eq_true_eq]
        intro hxid
        exact hnd.1 (hxid ▸ hxmem)
      rw [List.filter_cons]
      by_cases hp : p c
      · simp [hp, List.countP_cons, hrest]
      · simp [hp, hrest]
    · have haid : a.id ≠ c.id := by
        intro heq
        exact hnd.1 (heq ▸ List.mem_map.mpr ⟨c, h, rfl⟩)
      have hrec := ih hnd.2 h
      rw [List.filter_cons]
      by_cases hp : p a
      · simp only [hp, if_true, List.map_cons, List.countP_cons, hrec]
        simp [haid]
      · simp [hp, hrec]

theorem dispatch_eq_filter_map (clients : List AuthenticatedWebSocket)
    (e : DomainEvent) (ts : String) :
    dispatch clients e ts =
      (clients.filter (recipientRole e)).map
        (fun c => (c.id, stringify (eventMessage e ts))) := by
  cases e with
  | GrantChanged p =>
      simp only [dispatch, notifyGrantChange, sendToServers, eventMessage]
      exact congrArg _ (List.filter_congr (fun c _ => by simp [recipientRole]))
  | RankChanged r =>
      simp only [dispatch, notifyRankChange, broadcast, eventMessage]
      exact congrArg _ (List.filter_congr (fun c _ => by simp [recipientRole]))
  | PlayerUpdated p =>
      simp only [dispatch, notifyPlayerUpdate, sendToServers, eventMessage]
      exact congrArg _ (List.filter_congr (fun c _ => by simp [recipientRole]))
  | PunishmentExecute p t r =>
      simp only [dispatch, notifyPunishmentExecute, sendToProxy, eventMessage]
      exact congrArg _ (List.filter_congr (fun c _ => by simp [recipientRole]))
  | PrivateMessage tp sn m =>
      simp only [dispatch, sendPrivateMessage, sendToServers, eventMessage]
      exact congrArg _ (List.filter_congr (fun c _ => by simp [recipientRole]))

/-- Claim C1: for every registry state with distinct connection ids and every
dispatched domain event, each registered connection receives exactly one copy
of the encoded event when it is an open member of the event's recipient role
subset (workers for `GrantChanged`, `PlayerUpdated`, `PrivateMessage`; both
roles for `RankChanged`; proxies for `PunishmentExecute`) and receives nothing
otherwise, and every write carries the encoded event. -/
theorem dispatch_role_routing (clients : List AuthenticatedWebSocket)
    (e : DomainEvent) (ts : String) (c : AuthenticatedWebSocket)
    (hnd : (clients.map (fun x => x.id)).Nodup) (hc : c ∈ clients) :
    ((dispatch clients e ts).countP (fun w => decide (w.1 = c.id))
        = if recipientRole e c then 1 else 0)
    ∧ (∀ w ∈ dispatch clients e ts, w.2 = stringify (eventMessage e ts)) := by
  constructor
  · rw [dispatch_eq_filter_map]
    exact countP_writes (recipientRole e) (stringify (eventMessage e ts)) clients c hnd hc
  · intro w hw
    rw [dispatch_eq_filter_map] at hw
    rcases List.mem_map.mp hw with ⟨x, _, rfl⟩
    rfl

theorem dispatch_role_routing_witness :
    (([⟨1, true, some ServerType.proxy, "main-proxy", true, WebSocket.OPEN⟩,
       ⟨2, true, some ServerType.server, "survival", true, WebSocket.OPEN⟩] :
        List AuthenticatedWebSocket).map (fun x => x.id)).Nodup
    ∧ (⟨2, true, some ServerType.server, "survival", true, WebSocket.OPEN⟩ :
        AuthenticatedWebSocket) ∈
      ([⟨1, true, some ServerType.proxy, "main-proxy", true, WebSocket.OPEN⟩,
        ⟨2, true, some ServerType.server, "survival", true, WebSocket.OPEN⟩] :
        List AuthenticatedWebSocket)
    ∧ (((dispatch
          [⟨1, true, some ServerType.proxy, "main-proxy", true, WebSocket.OPEN⟩,
           ⟨2, true, some ServerType.server, "survival", true, WebSocket.OPEN⟩]
          (DomainEvent.GrantChanged "u1") "t0").countP
            (fun w => decide (w.1 = 2)) = 1)
        ∧ (∀ w ∈ dispatch
            [⟨1, true, some ServerType.proxy, "main-proxy", true, WebSocket.OPEN⟩,
             ⟨2, true, some ServerType.server, "survival", true, WebSocket.OPEN⟩]
            (DomainEvent.GrantChanged "u1") "t0",
            w.2 = stringify (eventMessage (DomainEvent.GrantChanged "u1") "t0"))) := by
  refine ⟨by decide, by decide, ?_⟩
  have h := dispatch_role_routing
    [⟨1, true, some ServerType.proxy, "main-proxy", true, WebSocket.OPEN⟩,
     ⟨2, true, some ServerType.server, "survival", true, WebSocket.OPEN⟩]
    (DomainEvent.GrantChanged "u1") "t0"
    ⟨2, true, some ServerType.server, "survival", true, WebSocket.OPEN⟩
    (by decide) (by decide)
  simpa using h

/-- Result of `JSON.parse` on an inbound frame, as seen by `handleMessage`:
`some m` when the buffer decodes to a structured message, `none` when the
parse throws (caught by the surrounding try/catch and only logged). -/
abbrev ParsedFrame := Option WsMessage

/-- Source `handleMessage(client, data)`: on decode success, rebroadcast the
decoded message to every other client; on decode failure, drop the frame. -/
def handleMessage (clients : List AuthenticatedWebSocket) (senderId : Nat)
    (parsed : ParsedFrame) : List (Nat × String) :=
  match parsed with
  | some message => broadcast clients message (some senderId)
  | none => []

/-- JavaScript truthiness test on an optional query-string value:
`null` and the empty string are falsy. -/
def jsFalsy : Option String → Bool
  | none => true
  | some s => decide (s = "")

/-- JavaScript `value || "unknown"` for the optional `name` parameter. -/
def jsOrUnknown : Option String → String
  | none => "unknown"
  | some s => if s = "" then "unknown" else s

/-- Query-string parameters of one connection attempt
(`api_key`, `type`, `name`; `none` = parameter absent). -/
structure ConnReq where
  api_key : Option String
  type : Option String
  name : Option String
deriving DecidableEq, Repr

/-- Outcome of the handshake portion of the `connection` handler. -/
inductive HandshakeResult
  | rejected (errorMessage : String) (closeCode : Nat) (closeReason : String)
  | accepted (client : AuthenticatedWebSocket) (ack : WsMessage)
deriving DecidableEq, Repr

/-- Handshake of the `connection` handler in `attach` (the `ws`-library
manager): reject when the supplied `api_key` differs from the configured
`API_KEY` (absence compares unequal to any configured string, including the
empty default used when no key is configured); then reject a missing (falsy)
`type`; then resolve exactly `bungee` to `proxy` and `paper` to `server`,
rejecting anything else; on success build the authenticated client (fresh id,
`isAlive = true`, label defaulted to `unknown`) and the `CONNECTED` ack. -/
def handleConnection (apiKeyConfig : String) (req : ConnReq) (freshId : Nat) :
    HandshakeResult :=
  if req.api_key ≠ some apiKeyConfig then
    HandshakeResult.rejected "Authentication failed" 1008 "Authentication failed"
  else if jsFalsy req.type then
    HandshakeResult.rejected "Missing type parameter" 1008 "Missing type parameter"
  else if req.type = some "bungee" then
    HandshakeResult.accepted
      { id := freshId, isAlive := true, serverType := some ServerType.proxy,
        serverName := jsOrUnknown req.name, authenticated := true,
        readyState := WebSocket.OPEN }
      (WsMessage.CONNECTED ServerType.proxy (jsOrUnknown req.name))
  else if req.type = some "paper" then
    HandshakeResult.accepted
      { id := freshId, isAlive := true, serverType := some ServerType.server,
        serverName := jsOrUnknown req.name, authenticated := true,
        readyState := WebSocket.OPEN }
      (WsMessage.CONNECTED ServerType.server (jsOrUnknown req.name))
  else
    HandshakeResult.rejected "Invalid type parameter. Use: bungee or paper"
      1008 "Invalid type parameter"

/-- Source `this.clients.delete(client)`: remove the connection with the given
identity from the registry set. -/
def clientsDelete (clients : List AuthenticatedWebSocket) (i : Nat) :
    List AuthenticatedWebSocket :=
  clients.filter (fun c => decide (c.id ≠ i))

/-- Events the manager reacts to: a connection attempt, an inbound frame from
a registered socket, a pong (heartbeat acknowledgement), the transport close
and error events, and one tick of the 30-second keepalive interval. -/
inductive WsEvent
  | connection (req : ConnReq) (freshId : Nat)
  | message (senderId : Nat) (parsed : ParsedFrame)
  | pong (id : Nat)
  | closeEvent (id : Nat)
  | errorEvent (id : Nat)
  | keepaliveTick
deriving DecidableEq, Repr

/-- Observable outcome of one handler run: the new registry, the frames
written (socket id, payload), the `close` calls (id, code, reason) and the
`terminate` calls. -/
structure StepResult where
  clients : List AuthenticatedWebSocket
  writes : List (Nat × String)
  closes : List (Nat × Nat × String)
  terminations : List Nat
deriving DecidableEq, Repr

/-- One handler run of the manager, from the source of `attach`:
the `connection` handler (handshake, then insertion and `CONNECTED` ack, or
`ERROR` frame and close), the `message` handler (`handleMessage`), the `pong`
handler (set `isAlive`), the `close`/`error` handlers (delete from the set),
and one keepalive tick (terminate the clients whose `isAlive` flag is still
false — their close handlers remove them from the set — and clear the flag of
and ping the rest). -/
def stepRegistry (apiKeyConfig : String) (clients : List AuthenticatedWebSocket) :
    WsEvent → StepResult
  | WsEvent.connection req freshId =>
      match handleConnection apiKeyConfig req freshId with
      | HandshakeResult.rejected msg code reason =>
          { clients := clients,
            writes := [(freshId, stringify (WsMessage.ERROR msg))],
            closes := [(freshId, code, reason)],
            terminations := [] }
      | HandshakeResult.accepted client ack =>
          { clients := clients ++ [client],
            writes := [(freshId, stringify ack)],
            closes := [],
            terminations := [] }
  | WsEvent.message senderId parsed =>
      { clients := clients,
        writes := handleMessage clients senderId parsed,
        closes := [],
        terminations := [] }
  | WsEvent.pong i =>
      { clients := clients.map (fun c =>
          if c.id = i then { c with isAlive := true } else c),
        writes := [],
        closes := [],
        terminations := [] }
  | WsEvent.closeEvent i =>
      { clients := clientsDelete clients i,
        writes := [],
        closes := [],
        terminations := [] }
  | WsEvent.errorEvent i =>
      { clients := clientsDelete clients i,
        writes := [],
        closes := [],
        terminations := [] }
  | WsEvent.keepaliveTick =>
      { clients := (clients.filter (fun c => c.isAlive)).map
          (fun c => { c with isAlive := false }),
        writes := [],
        closes := [],
        terminations := (clients.filter (fun c => !c.isAlive)).map (fun c => c.id) }

/-- Running a sequence of events against a registry state. -/
def runSteps (apiKeyConfig : String) (s : List AuthenticatedWebSocket) :
    List WsEvent → List AuthenticatedWebSocket
  | [] => s
  | e :: evs => runSteps apiKeyConfig (stepRegistry apiKeyConfig s e).clients evs

/-- Registry states reachable from the empty registry by handler runs. -/
inductive Reachable (apiKeyConfig : String) : List AuthenticatedWebSocket → Prop
  | init : Reachable apiKeyConfig []
  | step (s : List AuthenticatedWebSocket) (e : WsEvent) :
      Reachable apiKeyConfig s →
      Reachable apiKeyConfig (stepRegistry apiKeyConfig s e).clients

/-- Claim C2: with connections registered under distinct ids, an inbound frame
from a registered connection that decodes successfully is rebroadcast to every
other open connection exactly once, and no write ever targets the sender. -/
theorem raw_rebroadcast_excludes_sender (clients : List AuthenticatedWebSocket)
    (sender : AuthenticatedWebSocket) (m : WsMessage)
    (c : AuthenticatedWebSocket)
    (hnd : (clients.map (fun x => x.id)).Nodup)
    (_hs : sender ∈ clients) (hc : c ∈ clients) :
    ((handleMessage clients sender.id (some m)).countP
        (fun w => decide (w.1 = c.id))
      = if c.id ≠ sender.id ∧ c.readyState = WebSocket.OPEN then 1 else 0)
    ∧ (∀ w ∈ handleMessage clients sender.id (some m), w.1 ≠ sender.id) := by
  constructor
  · have h := countP_writes
      (fun x => decide (some sender.id ≠ some x.id)
        && decide (x.readyState = WebSocket.OPEN))
      (stringify m) clients c hnd hc
    simp only [handleMessage, broadcast]
    rw [h]
    by_cases h1 : c.id = sender.id
    · simp [h1]
    · by_cases h2 : c.readyState = WebSocket.OPEN
      · simp [h1, h2, Ne.symm h1]
      · simp [h1, h2]
  · intro w hw
    simp only [handleMessage, broadcast] at hw
    rcases List.mem_map.mp hw with ⟨x, hx, rfl⟩
    have := List.of_mem_filter hx
    simp only [Bool.and_eq_true, decide_eq_true_eq] at this
    intro hcontra
    exact this.1 (congrArg some hcontra.symm)

theorem raw_rebroadcast_excludes_sender_witness :
    (([⟨1, true, some ServerType.server, "a", true, WebSocket.OPEN⟩,
       ⟨2, true, some ServerType.server, "b", true, WebSocket.OPEN⟩,
       ⟨3, true, some ServerType.proxy, "c", true, WebSocket.OPEN⟩] :
        List AuthenticatedWebSocket).map (fun x => x.id)).Nodup
    ∧ (((handleMessage
          [⟨1, true, some ServerType.server, "a", true, WebSocket.OPEN⟩,
           ⟨2, true, some ServerType.server, "b", true, WebSocket.OPEN⟩,
           ⟨3, true, some ServerType.proxy, "c", true, WebSocket.OPEN⟩]
          1 (some (WsMessage.RAW "x"))).countP (fun w => decide (w.1 = 2)) = 1)
        ∧ (∀ w ∈ handleMessage
            [⟨1, true, some ServerType.server, "a", true, WebSocket.OPEN⟩,
             ⟨2, true, some ServerType.server, "b", true, WebSocket.OPEN⟩,
             ⟨3, true, some ServerType.proxy, "c", true, WebSocket.OPEN⟩]
            1 (some (WsMessage.RAW "x")), w.1 ≠ 1)) := by
  refine ⟨by decide, ?_⟩
  have h := raw_rebroadcast_excludes_sender
    [⟨1, true, some ServerType.server, "a", true, WebSocket.OPEN⟩,
     ⟨2, true, some ServerType.server, "b", true, WebSocket.OPEN⟩,
     ⟨3, true, some ServerType.proxy, "c", true, WebSocket.OPEN⟩]
    ⟨1, true, some ServerType.server, "a", true, WebSocket.OPEN⟩
    (WsMessage.RAW "x")
    ⟨2, true, some ServerType.server, "b", true, WebSocket.OPEN⟩
    (by decide) (by decide) (by decide)
  simpa using h

/-- Claim C8: an inbound frame that fails to decode is dropped: the handler
writes nothing to any connection, closes and terminates nothing, leaves the
registry exactly as it was (in particular the sender remains a member), and
the handler returns normally (the parse failure is caught). -/
theorem decode_failure_dropped (apiKeyConfig : String)
    (clients : List AuthenticatedWebSocket) (senderId : Nat)
    (hs : senderId ∈ clientIds clients) :
    (stepRegistry apiKeyConfig clients (WsEvent.message senderId none)).writes = []
    ∧ (stepRegistry apiKeyConfig clients (WsEvent.message senderId none)).clients
        = clients
    ∧ senderId ∈ clientIds
        (stepRegistry apiKeyConfig clients (WsEvent.message senderId none)).clients
    ∧ (stepRegistry apiKeyConfig clients (WsEvent.message senderId none)).closes = []
    ∧ (stepRegistry apiKeyConfig clients
        (WsEvent.message senderId none)).terminations = [] :=
  ⟨rfl, rfl, hs, rfl, rfl⟩

theorem decode_failure_dropped_witness :
    (1 ∈ clientIds [⟨1, true, some ServerType.server, "a", true, WebSocket.OPEN⟩])
    ∧ ((stepRegistry ""
          [⟨1, true, some ServerType.server, "a", true, WebSocket.OPEN⟩]
          (WsEvent.message 1 none)).writes = []
        ∧ (stepRegistry ""
            [⟨1, true, some ServerType.server, "a", true, WebSocket.OPEN⟩]
            (WsEvent.message 1 none)).clients
            = [⟨1, true, some ServerType.server, "a", true, WebSocket.OPEN⟩]
        ∧ 1 ∈ clientIds (stepRegistry ""
            [⟨1, true, some ServerType.server, "a", true, WebSocket.OPEN⟩]
            (WsEvent.message 1 none)).clients
        ∧ (stepRegistry ""
            [⟨1, true, some ServerType.server, "a", true, WebSocket.OPEN⟩]
            (WsEvent.message 1 none)).closes = []
        ∧ (stepRegistry ""
            [⟨1, true, some ServerType.server, "a", true, WebSocket.OPEN⟩]
            (WsEvent.message 1 none)).terminations = []) :=
  ⟨by decide,
   decode_failure_dropped ""
     [⟨1, true, some ServerType.server, "a", true, WebSocket.OPEN⟩] 1 (by decide)⟩

/-- Claim C9: removal from the registry is idempotent — deleting the same
connection twice leaves exactly the state one deletion leaves — and deleting
a connection that is not a member is a no-op (and in particular total,
raising no error). -/
theorem remove_idempotent (s : List AuthenticatedWebSocket) (i : Nat) :
    clientsDelete (clientsDelete s i) i = clientsDelete s i
    ∧ (i ∉ clientIds s → clientsDelete s i = s) := by
  constructor
  · apply List.filter_eq_self.mpr
    intro c hc
    exact (List.mem_filter.mp hc).2
  · intro hi
    apply List.filter_eq_self.mpr
    intro c hc
    simp only [decide_eq_true_eq]
    intro heq
    exact hi (heq ▸ List.mem_map.mpr ⟨c, hc, rfl⟩)

theorem remove_idempotent_witness :
    (2 ∉ clientIds [⟨1, true, some ServerType.server, "a", true, WebSocket.OPEN⟩])
    ∧ (clientsDelete (clientsDelete
          [⟨1, true, some ServerType.server, "a", true, WebSocket.OPEN⟩] 1) 1
        = clientsDelete
          [⟨1, true, some ServerType.server, "a", true, WebSocket.OPEN⟩] 1)
    ∧ (clientsDelete
        [⟨1, true, some ServerType.server, "a", true, WebSocket.OPEN⟩] 2
        = [⟨1, true, some ServerType.server, "a", true, WebSocket.OPEN⟩]) :=
  ⟨by decide,
   (remove_idempotent
     [⟨1, true, some ServerType.server, "a", true, WebSocket.OPEN⟩] 1).1,
   (remove_idempotent
     [⟨1, true, some ServerType.server, "a", true, WebSocket.OPEN⟩] 2).2
     (by decide)⟩

theorem handleConnection_auth_reject (apiKeyConfig : String) (req : ConnReq)
    (freshId : Nat) (hk : req.api_key ≠ some apiKeyConfig) :
    handleConnection apiKeyConfig req freshId
      = HandshakeResult.rejected "Authentication failed" 1008 "Authentication failed" := by
  unfold handleConnection
  rw [if_pos hk]

theorem handleConnection_bungee (apiKeyConfig : String) (req : ConnReq)
    (freshId : Nat) (hk : req.api_key = some apiKeyConfig)
    (ht : req.type = some "bungee") :
    handleConnection apiKeyConfig req freshId
      = HandshakeResult.accepted
          { id := freshId, isAlive := true, serverType := some ServerType.proxy,
            serverName := jsOrUnknown req.name, authenticated := true,
            readyState := WebSocket.OPEN }
          (WsMessage.CONNECTED ServerType.proxy (jsOrUnknown req.name)) := by
  unfold handleConnection
  rw [ht, if_neg (by simp [hk]), if_neg (by decide), if_pos rfl]

theorem handleConnection_paper (apiKeyConfig : String) (req : ConnReq)
    (freshId : Nat) (hk : req.api_key = some apiKeyConfig)
    (ht : req.type = some "paper") :
    handleConnection apiKeyConfig req freshId
      = HandshakeResult.accepted
          { id := freshId, isAlive := true, serverType := some ServerType.server,
            serverName := jsOrUnknown req.name, authenticated := true,
            readyState := WebSocket.OPEN }
          (WsMessage.CONNECTED ServerType.server (jsOrUnknown req.name)) := by
  unfold handleConnection
  rw [ht, if_neg (by simp [hk]), if_neg (by decide), if_neg (by decide), if_pos rfl]

theorem handleConnection_invalid_role (apiKeyConfig : String) (req : ConnReq)
    (freshId : Nat) (h1 : req.type ≠ some "bungee") (h2 : req.type ≠ some "paper") :
    ∃ m code reason, handleConnection apiKeyConfig req freshId
      = HandshakeResult.rejected m code reason := by
  by_cases hk : req.api_key = some apiKeyConfig
  · by_cases hf : jsFalsy req.type = true
    · exact ⟨_, _, _, by unfold handleConnection; rw [if_neg (by simp [hk]), if_pos hf]⟩
    · exact ⟨_, _, _, by
        unfold handleConnection
        rw [if_neg (by simp [hk]), if_neg hf, if_neg h1, if_neg h2]⟩
  · exact ⟨_, _, _, handleConnection_auth_reject apiKeyConfig req freshId (by simp [hk])⟩

theorem handleConnection_accepted_fields (apiKeyConfig : String) (req : ConnReq)
    (freshId : Nat) (c : AuthenticatedWebSocket) (a : WsMessage)
    (h : handleConnection apiKeyConfig req freshId = HandshakeResult.accepted c a) :
    c.id = freshId
    ∧ (c.serverType = some ServerType.proxy ∨ c.serverType = some ServerType.server)
    ∧ c.authenticated = true
    ∧ req.api_key = some apiKeyConfig := by
  unfold handleConnection at h
  split at h
  · exact absurd h (by simp)
  · split at h
    · exact absurd h (by simp)
    · rename_i hknot _
      have hk : req.api_key = some apiKeyConfig := by
        by_contra hcon
        exact hknot hcon
      split at h
      · cases h
        exact ⟨rfl, Or.inl rfl, rfl, hk⟩
      · split at h
        · cases h
          exact ⟨rfl, Or.inr rfl, rfl, hk⟩
        · exact absurd h (by simp)

theorem clientIds_map_id_preserving (s : List AuthenticatedWebSocket)
    (g : AuthenticatedWebSocket → AuthenticatedWebSocket)
    (hg : ∀ c, (g c).id = c.id) :
    clientIds (s.map g) = clientIds s := by
  simp only [clientIds, List.map_map]
  congr 1
  funext c
  exact hg c

theorem mem_clientIds_filter (s : List AuthenticatedWebSocket)
    (p : AuthenticatedWebSocket → Bool) (i : Nat)
    (h : i ∈ clientIds (s.filter p)) : i ∈ clientIds s := by
  rcases List.mem_map.mp h with ⟨c, hc, rfl⟩
  exact List.mem_map.mpr ⟨c, List.mem_of_mem_filter hc, rfl⟩

theorem not_mem_clientIds_step (apiKeyConfig : String)
    (s : List AuthenticatedWebSocket) (e : WsEvent) (i : Nat)
    (hi : i ∉ clientIds s)
    (he : ∀ r f, e = WsEvent.connection r f → f ≠ i) :
    i ∉ clientIds (stepRegistry apiKeyConfig s e).clients := by
  cases e with
  | connection req f =>
      have hf : f ≠ i := he req f rfl
      cases hh : handleConnection apiKeyConfig req f with
      | rejected m code reason =>
          simpa [stepRegistry, hh] using hi
      | accepted c a =>
          have hcid := (handleConnection_accepted_fields apiKeyConfig req f c a hh).1
          simp only [stepRegistry, hh, clientIds, List.map_append]
          intro hmem
          rcases List.mem_append.mp hmem with h | h
          · exact hi h
          · simp only [List.map_cons, List.map_nil, List.mem_singleton] at h
            exact hf (by rw [← hcid, h])
  | message sid p => exact hi
  | pong j =>
      simp only [stepRegistry]
      rw [clientIds_map_id_preserving]
      · exact hi
      · intro c
        by_cases hc : c.id = j <;> simp [hc]
  | closeEvent j =>
      intro hmem
      exact hi (mem_clientIds_filter s _ i hmem)
  | errorEvent j =>
      intro hmem
      exact hi (mem_clientIds_filter s _ i hmem)
  | keepaliveTick =>
      simp only [stepRegistry]
      rw [clientIds_map_id_preserving]
      · intro hmem
        exact hi (mem_clientIds_filter s _ i hmem)
      · intro c
        rfl

theorem not_mem_runSteps (apiKeyConfig : String) (i : Nat) :
    ∀ (evs : List WsEvent) (s : List AuthenticatedWebSocket),
      i ∉ clientIds s →
      (∀ r f, WsEvent.connection r f ∈ evs → f ≠ i) →
      i ∉ clientIds (runSteps apiKeyConfig s evs) := by
  intro evs
  induction evs with
  | nil => intro s hi _; exact hi
  | cons e rest ih =>
      intro s hi he
      apply ih
      · exact not_mem_clientIds_step apiKeyConfig s e i hi
          (fun r f hef => he r f (hef ▸ List.mem_cons_self e rest))
      · intro r f hmem
        exact he r f (List.mem_cons_of_mem e hmem)

/-- Claim C3: a connection attempt whose role token is anything other than
exactly `bungee` or `paper` (including absent) is rejected: exactly one
`ERROR` frame is written to the attempting socket, the transport is closed,
the registry is unchanged (so no fallback role is ever assigned), and the
attempt's socket id never appears in any later registry snapshot, whatever
further events follow. -/
theorem invalid_role_rejected (apiKeyConfig : String) (req : ConnReq)
    (freshId : Nat) (s : List AuthenticatedWebSocket)
    (hrole : req.type ≠ some "bungee" ∧ req.type ≠ some "paper")
    (hfresh : freshId ∉ clientIds s) :
    (∃ m, (stepRegistry apiKeyConfig s (WsEvent.connection req freshId)).writes
        = [(freshId, stringify (WsMessage.ERROR m))])
    ∧ (∃ code reason,
        (stepRegistry apiKeyConfig s (WsEvent.connection req freshId)).closes
          = [(freshId, code, reason)])
    ∧ (stepRegistry apiKeyConfig s (WsEvent.connection req freshId)).clients = s
    ∧ ∀ evs : List WsEvent,
        (∀ r f, WsEvent.connection r f ∈ evs → f ≠ freshId) →
        freshId ∉ clientIds (runSteps apiKeyConfig
          (stepRegistry apiKeyConfig s (WsEvent.connection req freshId)).clients evs) := by
  rcases handleConnection_invalid_role apiKeyConfig req freshId hrole.1 hrole.2
    with ⟨m, code, reason, hh⟩
  refine ⟨⟨m, by simp [stepRegistry, hh]⟩, ⟨code, reason, by simp [stepRegistry, hh]⟩,
    by simp [stepRegistry, hh], ?_⟩
  intro evs he
  have hcl : (stepRegistry apiKeyConfig s (WsEvent.connection req freshId)).clients = s := by
    simp [stepRegistry, hh]
  rw [hcl]
  exact not_mem_runSteps apiKeyConfig freshId evs s hfresh he

theorem invalid_role_rejected_witness :
    ((⟨some "k", some "invalid", none⟩ : ConnReq).type ≠ some "bungee"
      ∧ (⟨some "k", some "invalid", none⟩ : ConnReq).type ≠ some "paper")
    ∧ (7 ∉ clientIds [⟨1, true, some ServerType.proxy, "p", true, WebSocket.OPEN⟩])
    ∧ ((∃ m, (stepRegistry "k"
          [⟨1, true, some ServerType.proxy, "p", true, WebSocket.OPEN⟩]
          (WsEvent.connection ⟨some "k", some "invalid", none⟩ 7)).writes
            = [(7, stringify (WsMessage.ERROR m))])
      ∧ (∃ code reason, (stepRegistry "k"
          [⟨1, true, some ServerType.proxy, "p", true, WebSocket.OPEN⟩]
          (WsEvent.connection ⟨some "k", some "invalid", none⟩ 7)).closes
            = [(7, code, reason)])
      ∧ (stepRegistry "k"
          [⟨1, true, some ServerType.proxy, "p", true, WebSocket.OPEN⟩]
          (WsEvent.connection ⟨some "k", some "invalid", none⟩ 7)).clients
          = [⟨1, true, some ServerType.proxy, "p", true, WebSocket.OPEN⟩]
      ∧ ∀ evs : List WsEvent,
          (∀ r f, WsEvent.connection r f ∈ evs → f ≠ 7) →
          7 ∉ clientIds (runSteps "k"
            (stepRegistry "k"
              [⟨1, true, some ServerType.proxy, "p", true, WebSocket.OPEN⟩]
              (WsEvent.connection ⟨some "k", some "invalid", none⟩ 7)).clients evs)) :=
  ⟨⟨by decide, by decide⟩, by decide,
   invalid_role_rejected "k" ⟨some "k", some "invalid", none⟩ 7
     [⟨1, true, some ServerType.proxy, "p", true, WebSocket.OPEN⟩]
     ⟨by decide, by decide⟩ (by decide)⟩

/-- Claim C4 counterexample: with no API key configured (the source defaults
`API_KEY` to the empty string), a role-valid connection attempt that supplies
no secret at all is rejected with an authentication failure and is not
admitted to the registry — refuting the claim that any role-valid attempt is
admitted regardless of the supplied secret. -/
theorem no_secret_absent_key_rejected :
    (stepRegistry "" [] (WsEvent.connection ⟨none, some "paper", none⟩ 0)).clients = []
    ∧ handleConnection "" ⟨none, some "paper", none⟩ 0
        = HandshakeResult.rejected "Authentication failed" 1008 "Authentication failed" := by
  constructor
  · rfl
  · rfl

/-- Claim C4 (amended): with no API key configured (`API_KEY` defaults to the
empty string), a role-valid connection attempt is admitted if and only if the
client supplies a secret equal to the empty string (an `api_key=` parameter);
an absent or non-empty supplied secret is rejected and the registry is
unchanged. -/
theorem insecure_mode_empty_secret_iff (req : ConnReq) (freshId : Nat)
    (s : List AuthenticatedWebSocket)
    (hrole : req.type = some "bungee" ∨ req.type = some "paper") :
    (req.api_key = some "" →
      ∃ c, (stepRegistry "" s (WsEvent.connection req freshId)).clients = s ++ [c])
    ∧ (req.api_key ≠ some "" →
      (stepRegistry "" s (WsEvent.connection req freshId)).clients = s) := by
  constructor
  · intro hk
    rcases hrole with ht | ht
    · rw [show (stepRegistry "" s (WsEvent.connection req freshId))
          = _ from rfl]
      simp only [stepRegistry, handleConnection_bungee "" req freshId hk ht]
      exact ⟨_, rfl⟩
    · simp only [stepRegistry, handleConnection_paper "" req freshId hk ht]
      exact ⟨_, rfl⟩
  · intro hk
    simp [stepRegistry, handleConnection_auth_reject "" req freshId hk]

theorem insecure_mode_empty_secret_iff_witness :
    ((⟨some "", some "paper", some "survival"⟩ : ConnReq).type = some "bungee"
      ∨ (⟨some "", some "paper", some "survival"⟩ : ConnReq).type = some "paper")
    ∧ (∃ c, (stepRegistry "" []
        (WsEvent.connection ⟨some "", some "paper", some "survival"⟩ 5)).clients
          = [] ++ [c])
    ∧ ((stepRegistry "" []
        (WsEvent.connection ⟨none, some "bungee", none⟩ 6)).clients = []) :=
  ⟨Or.inr rfl,
   (insecure_mode_empty_secret_iff ⟨some "", some "paper", some "survival"⟩ 5 []
     (Or.inr rfl)).1 rfl,
   (insecure_mode_empty_secret_iff ⟨none, some "bungee", none⟩ 6 []
     (Or.inl rfl)).2 (by decide)⟩

/-- Claim C5: in every reachable registry state every member has its role
resolved to one of the two known roles and is marked authenticated, and a
connection attempt whose supplied secret does not match the configured one is
never inserted (the registry is left unchanged by such an attempt). -/
theorem registry_members_authenticated (apiKeyConfig : String)
    (s : List AuthenticatedWebSocket) (hr : Reachable apiKeyConfig s) :
    (∀ c ∈ s,
      (c.serverType = some ServerType.proxy ∨ c.serverType = some ServerType.server)
        ∧ c.authenticated = true)
    ∧ (∀ req freshId, req.api_key ≠ some apiKeyConfig →
        (stepRegistry apiKeyConfig s (WsEvent.connection req freshId)).clients = s) := by
  constructor
  · induction hr with
    | init => intro c hc; cases hc
    | step s e _hr ih =>
        intro c hc
        cases e with
        | connection req f =>
            cases hh : handleConnection apiKeyConfig req f with
            | rejected m code reason =>
                simp only [stepRegistry, hh] at hc
                exact ih c hc
            | accepted newc a =>
                simp only [stepRegistry, hh] at hc
                rcases List.mem_append.mp hc with h | h
                · exact ih c h
                · have hceq := List.mem_singleton.mp h
                  have hf := handleConnection_accepted_fields apiKeyConfig req f newc a hh
                  rw [hceq]
                  exact ⟨hf.2.1, hf.2.2.1⟩
        | message sid p => exact ih c hc
        | pong j =>
            simp only [stepRegistry] at hc
            rcases List.mem_map.mp hc with ⟨x, hx, rfl⟩
            by_cases hxj : x.id = j
            · have := ih x hx
              simpa [hxj] using this
            · have := ih x hx
              simpa [hxj] using this
        | closeEvent j =>
            simp only [stepRegistry, clientsDelete] at hc
            exact ih c (List.mem_of_mem_filter hc)
        | errorEvent j =>
            simp only [stepRegistry, clientsDelete] at hc
            exact ih c (List.mem_of_mem_filter hc)
        | keepaliveTick =>
            simp only [stepRegistry] at hc
            rcases List.mem_map.mp hc with ⟨x, hx, rfl⟩
            exact ih x (List.mem_of_mem_filter hx)
  · intro req freshId hk
    simp [stepRegistry, handleConnection_auth_reject apiKeyConfig req freshId hk]

theorem registry_members_authenticated_witness :
    Reachable "k" (stepRegistry "k" []
      (WsEvent.connection ⟨some "k", some "paper", some "survival"⟩ 1)).clients
    ∧ ((∀ c ∈ (stepRegistry "k" []
          (WsEvent.connection ⟨some "k", some "paper", some "survival"⟩ 1)).clients,
          (c.serverType = some ServerType.proxy
            ∨ c.serverType = some ServerType.server)
            ∧ c.authenticated = true)
      ∧ (∀ req freshId, req.api_key ≠ some "k" →
          (stepRegistry "k"
            (stepRegistry "k" []
              (WsEvent.connection ⟨some "k", some "paper", some "survival"⟩ 1)).clients
            (WsEvent.connection req freshId)).clients
          = (stepRegistry "k" []
              (WsEvent.connection ⟨some "k", some "paper", some "survival"⟩ 1)).clients)) :=
  ⟨Reachable.step [] _ Reachable.init,
   registry_members_authenticated "k" _ (Reachable.step [] _ Reachable.init)⟩

theorem runSteps_append (apiKeyConfig : String) :
    ∀ (l1 l2 : List WsEvent) (s : List AuthenticatedWebSocket),
      runSteps apiKeyConfig s (l1 ++ l2)
        = runSteps apiKeyConfig (runSteps apiKeyConfig s l1) l2 := by
  intro l1
  induction l1 with
  | nil => intro l2 s; rfl
  | cons e rest ih => intro l2 s; exact ih l2 _

/-- Members whose id is `i` all have their keepalive flag cleared. -/
def deadFlag (s : List AuthenticatedWebSocket) (i : Nat) : Prop :=
  ∀ c ∈ s, c.id = i → c.isAlive = false

theorem tick_clears_flags (apiKeyConfig : String) (s : List AuthenticatedWebSocket) :
    ∀ c ∈ (stepRegistry apiKeyConfig s WsEvent.keepaliveTick).clients,
      c.isAlive = false := by
  intro c hc
  simp only [stepRegistry] at hc
  rcases List.mem_map.mp hc with ⟨x, _, rfl⟩
  rfl

theorem step_preserves_deadFlag (apiKeyConfig : String)
    (s : List AuthenticatedWebSocket) (i : Nat) (e : WsEvent)
    (hd : deadFlag s i) (hp : e ≠ WsEvent.pong i)
    (hcn : ∀ r f, e = WsEvent.connection r f → f ≠ i) :
    deadFlag (stepRegistry apiKeyConfig s e).clients i := by
  cases e with
  | connection req f =>
      have hf : f ≠ i := hcn req f rfl
      cases hh : handleConnection apiKeyConfig req f with
      | rejected m code reason =>
          simpa [stepRegistry, hh] using hd
      | accepted newc a =>
          have hcid := (handleConnection_accepted_fields apiKeyConfig req f newc a hh).1
          intro c hc hci
          simp only [stepRegistry, hh] at hc
          rcases List.mem_append.mp hc with h | h
          · exact hd c h hci
          · rcases List.mem_singleton.mp h with rfl
            exact absurd (hcid ▸ hci) hf
  | message sid p => exact hd
  | pong j =>
      have hj : j ≠ i := fun hji => hp (by rw [hji])
      intro c hc hci
      simp only [stepRegistry] at hc
      rcases List.mem_map.mp hc with ⟨x, hx, rfl⟩
      by_cases hxj : x.id = j
      · simp only [hxj, if_pos rfl] at hci ⊢
        exact absurd hci hj
      · simp only [if_neg hxj] at hci ⊢
        exact hd x hx hci
  | closeEvent j =>
      intro c hc hci
      simp only [stepRegistry, clientsDelete] at hc
      exact hd c (List.mem_of_mem_filter hc) hci
  | errorEvent j =>
      intro c hc hci
      simp only [stepRegistry, clientsDelete] at hc
      exact hd c (List.mem_of_mem_filter hc) hci
  | keepaliveTick =>
      intro c hc _
      exact tick_clears_flags apiKeyConfig s c hc

theorem runSteps_preserves_deadFlag (apiKeyConfig : String) (i : Nat) :
    ∀ (evs : List WsEvent) (s : List AuthenticatedWebSocket),
      deadFlag s i →
      (∀ e ∈ evs, e ≠ WsEvent.pong i
        ∧ ∀ r f, e = WsEvent.connection r f → f ≠ i) →
      deadFlag (runSteps apiKeyConfig s evs) i := by
  intro evs
  induction evs with
  | nil => intro s hd _; exact hd
  | cons e rest ih =>
      intro s hd he
      apply ih
      · exact step_preserves_deadFlag apiKeyConfig s i e hd
          (he e (List.mem_cons_self e rest)).1
          (he e (List.mem_cons_self e rest)).2
      · intro x hx
        exact he x (List.mem_cons_of_mem e hx)

theorem tick_evicts_dead (apiKeyConfig : String)
    (s : List AuthenticatedWebSocket) (i : Nat) (hd : deadFlag s i) :
    i ∉ clientIds (stepRegistry apiKeyConfig s WsEvent.keepaliveTick).clients := by
  intro hmem
  simp only [stepRegistry] at hmem
  rw [clientIds_map_id_preserving (s.filter (fun c => c.isAlive))
    (fun c => { c with isAlive := false }) (fun c => rfl)] at hmem
  rcases List.mem_map.mp hmem with ⟨c, hc, hci⟩
  have halive := (List.mem_filter.mp hc).1
  have := hd c halive hci
  have hkept := (List.mem_filter.mp hc).2
  rw [this] at hkept
  cases hkept

/-- Event trace of a connection that acknowledges every heartbeat probe:
`n` keepalive periods, a pong from socket `i` after each probe. -/
def ackCycle (i : Nat) : Nat → List WsEvent
  | 0 => []
  | n + 1 => WsEvent.keepaliveTick :: WsEvent.pong i :: ackCycle i n

theorem ack_survives_cycle (apiKeyConfig : String) (i : Nat) :
    ∀ (n : Nat) (s : List AuthenticatedWebSocket),
      (∃ c ∈ s, c.id = i ∧ c.isAlive = true) →
      ∃ c ∈ runSteps apiKeyConfig s (ackCycle i n), c.id = i ∧ c.isAlive = true := by
  intro n
  induction n with
  | zero => intro s h; exact h
  | succ n ih =>
      intro s h
      rcases h with ⟨c, hc, hci, hca⟩
      apply ih
      refine ⟨{ c with isAlive := true }, ?_, hci, rfl⟩
      have h1 : ({ c with isAlive := false } : AuthenticatedWebSocket)
          ∈ (stepRegistry apiKeyConfig s WsEvent.keepaliveTick).clients := by
        simp only [stepRegistry]
        exact List.mem_map.mpr ⟨c, List.mem_filter.mpr ⟨hc, hca⟩, rfl⟩
      have h2 : ({ c with isAlive := true } : AuthenticatedWebSocket)
          ∈ (stepRegistry apiKeyConfig
              (stepRegistry apiKeyConfig s WsEvent.keepaliveTick).clients
              (WsEvent.pong i)).clients := by
        simp only [stepRegistry]
        apply List.mem_map.mpr
        refine ⟨{ c with isAlive := false }, h1, ?_⟩
        simp [hci]
      exact h2

/-- Claim C6: a registered connection that stops acknowledging heartbeat
probes is evicted within two keepalive periods — after the tick that clears
its flag and the next tick, with no pong from it in between, its id is absent
from the registry and stays absent under any further events that do not
accept a new connection with that id — while a connection that acknowledges
every probe is still registered after arbitrarily many keepalive periods. -/
theorem heartbeat_eviction_bound (apiKeyConfig : String)
    (s : List AuthenticatedWebSocket) (i : Nat) :
    (∀ evs evs2 : List WsEvent,
        (∀ e ∈ evs, e ≠ WsEvent.pong i
          ∧ ∀ r f, e = WsEvent.connection r f → f ≠ i) →
        (∀ r f, WsEvent.connection r f ∈ evs2 → f ≠ i) →
        i ∉ clientIds (runSteps apiKeyConfig s
          (WsEvent.keepaliveTick :: (evs ++ [WsEvent.keepaliveTick] ++ evs2))))
    ∧ (∀ n : Nat, (∃ c ∈ s, c.id = i ∧ c.isAlive = true) →
        i ∈ clientIds (runSteps apiKeyConfig s (ackCycle i n))) := by
  constructor
  · intro evs evs2 he he2
    have hd1 : deadFlag (stepRegistry apiKeyConfig s WsEvent.keepaliveTick).clients i :=
      fun c hc _ => tick_clears_flags apiKeyConfig s c hc
    have hd2 := runSteps_preserves_deadFlag apiKeyConfig i evs
      (stepRegistry apiKeyConfig s WsEvent.keepaliveTick).clients hd1 he
    simp only [runSteps]
    rw [runSteps_append, runSteps_append]
    apply not_mem_runSteps apiKeyConfig i evs2 _ _ he2
    exact tick_evicts_dead apiKeyConfig _ i hd2
  · intro n h
    rcases ack_survives_cycle apiKeyConfig i n s h with ⟨c, hc, hci, _⟩
    exact List.mem_map.mpr ⟨c, hc, hci⟩

theorem heartbeat_eviction_bound_witness :
    (1 ∉ clientIds (runSteps ""
        [⟨1, true, some ServerType.server, "a", true, WebSocket.OPEN⟩,
         ⟨2, true, some ServerType.proxy, "b", true, WebSocket.OPEN⟩]
        (WsEvent.keepaliveTick
          :: ([WsEvent.pong 2] ++ [WsEvent.keepaliveTick] ++ []))))
    ∧ ((∃ c ∈ ([⟨1, true, some ServerType.server, "a", true, WebSocket.OPEN⟩] :
          List AuthenticatedWebSocket), c.id = 1 ∧ c.isAlive = true)
      ∧ 1 ∈ clientIds (runSteps ""
          [⟨1, true, some ServerType.server, "a", true, WebSocket.OPEN⟩]
          (ackCycle 1 3))) := by
  refine ⟨?_, ?_, ?_⟩
  · exact (heartbeat_eviction_bound ""
      [⟨1, true, some ServerType.server, "a", true, WebSocket.OPEN⟩,
       ⟨2, true, some ServerType.proxy, "b", true, WebSocket.OPEN⟩] 1).1
      [WsEvent.pong 2] []
      (by intro e he; simp only [List.mem_singleton] at he; subst he
          exact ⟨by decide, fun r f hrf => by cases hrf⟩)
      (by intro r f hrf; cases hrf)
  · exact ⟨⟨1, true, some ServerType.server, "a", true, WebSocket.OPEN⟩,
      List.mem_singleton.mpr rfl, rfl, rfl⟩
  · exact (heartbeat_eviction_bound ""
      [⟨1, true, some ServerType.server, "a", true, WebSocket.OPEN⟩] 1).2 3
      ⟨⟨1, true, some ServerType.server, "a", true, WebSocket.OPEN⟩,
        List.mem_singleton.mpr rfl, rfl, rfl⟩

/-- One pass of the `forEach` send loop of a dispatch, with the transport
failure behavior of the `ws` library made explicit: `send` never throws into
the loop; when the write to socket `i` fails (`fails i`), the library surfaces
it asynchronously on that socket's `error` event, so the loop records the
failed recipient and continues with the rest.  Returns the writes actually
delivered and the recipients whose sends failed. -/
def sendLoop (selected : AuthenticatedWebSocket → Bool) (data : String)
    (fails : Nat → Bool) : List AuthenticatedWebSocket → List (Nat × String) × List Nat
  | [] => ([], [])
  | c :: rest =>
      let r := sendLoop selected data fails rest
      if selected c then
        if fails c.id then (r.1, c.id :: r.2) else ((c.id, data) :: r.1, r.2)
      else r

/-- Writes delivered by a dispatch of `e` when the sends to the sockets in
`fails` report transport errors. -/
def deliveredWrites (clients : List AuthenticatedWebSocket) (e : DomainEvent)
    (ts : String) (fails : Nat → Bool) : List (Nat × String) :=
  (sendLoop (recipientRole e) (stringify (eventMessage e ts)) fails clients).1

/-- Recipients whose transport write failed during the dispatch. -/
def failedRecipients (clients : List AuthenticatedWebSocket) (e : DomainEvent)
    (ts : String) (fails : Nat → Bool) : List Nat :=
  (sendLoop (recipientRole e) (stringify (eventMessage e ts)) fails clients).2

/-- Registry after the dispatch: each failed recipient's `error` handler has
run (log and `this.clients.delete(client)`). -/
def registryAfterDispatch (clients : List AuthenticatedWebSocket) (e : DomainEvent)
    (ts : String) (fails : Nat → Bool) : List AuthenticatedWebSocket :=
  (failedRecipients clients e ts fails).foldl (fun cs i => clientsDelete cs i) clients

/-- A dispatch in the presence of transport write failures, as observed by the
caller (the CRUD layer): it always returns normally with the delivered writes
and the post-error-handler registry; no failure is raised. -/
def dispatchWithFailures (clients : List AuthenticatedWebSocket) (e : DomainEvent)
    (ts : String) (fails : Nat → Bool) :
    Except String (List (Nat × String) × List AuthenticatedWebSocket) :=
  Except.ok (deliveredWrites clients e ts fails, registryAfterDispatch clients e ts fails)

theorem sendLoop_countP (p : AuthenticatedWebSocket → Bool) (data : String)
    (fails : Nat → Bool) (clients : List AuthenticatedWebSocket)
    (c : AuthenticatedWebSocket)
    (hnd : (clients.map (fun x => x.id)).Nodup) (hc : c ∈ clients) :
    (sendLoop p data fails clients).1.countP (fun w => decide (w.1 = c.id))
      = if p c && !(fails c.id) then 1 else 0 := by
  induction clients with
  | nil => cases hc
  | cons a rest ih =>
    simp only [List.map_cons, List.nodup_cons] at hnd
    rcases List.mem_cons.mp hc with h | h
    · subst h
      have hrest : (sendLoop p data fails rest).1.countP
          (fun w => decide (w.1 = c.id)) = 0 := by
        apply List.countP_eq_zero.mpr
        intro w hw
        have hin : w.1 ∈ rest.map (fun y => y.id) := by
          clear hc hnd ih
          induction rest with
          | nil => cases hw
          | cons b rest2 ih2 =>
              simp only [sendLoop] at hw
              by_cases hb : p b
              · by_cases hf : fails b.id
                · simp only [hb, hf, if_pos] at hw
                  exact List.mem_cons_of_mem _ (ih2 hw)
                · simp only [hb, hf, if_pos, if_neg] at hw
                  rcases List.mem_cons.mp hw with h1 | h1
                  · rw [h1]; exact List.mem_cons_self _ _
                  · exact List.mem_cons_of_mem _ (ih2 h1)
              · simp only [hb, if_neg] at hw
                exact List.mem_cons_of_mem _ (ih2 hw)
        simp only [decide_eq_true_eq]
        intro hxid
        exact hnd.1 (hxid ▸ hin)
      simp only [sendLoop]
      by_cases hp : p c
      · by_cases hf : fails c.id
        · simp [hp, hf, hrest]
        · simp [hp, hf, List.countP_cons, hrest]
      · simp [hp, hrest]
    · have haid : a.id ≠ c.id := by
        intro heq
        exact hnd.1 (heq ▸ List.mem_map.mpr ⟨c, h, rfl⟩)
      have hrec := ih hnd.2 h
      simp only [sendLoop]
      by_cases hp : p a
      · by_cases hf : fails a.id
        · simp [hp, hf, hrec]
        · simp [hp, hf, List.countP_cons, hrec, haid]
      · simp [hp, hrec]

theorem sendLoop_mem_failed (p : AuthenticatedWebSocket → Bool) (data : String)
    (fails : Nat → Bool) (clients : List AuthenticatedWebSocket)
    (c : AuthenticatedWebSocket) (hc : c ∈ clients)
    (hp : p c = true) (hf : fails c.id = true) :
    c.id ∈ (sendLoop p data fails clients).2 := by
  induction clients with
  | nil => cases hc
  | cons a rest ih =>
    rcases List.mem_cons.mp hc with h | h
    · subst h
      simp only [sendLoop, hp, hf, if_pos]
      exact List.mem_cons_self _ _
    · simp only [sendLoop]
      by_cases hpa : p a
      · by_cases hfa : fails a.id
        · simp only [hpa, hfa, if_pos]
          exact List.mem_cons_of_mem _ (ih h)
        · simp only [hpa, hfa, if_pos, if_neg]
          exact ih h
      · simp only [hpa, if_neg]
        exact ih h

theorem foldl_delete_preserves_not_mem (i : Nat) :
    ∀ (l : List Nat) (cs : List AuthenticatedWebSocket),
      i ∉ clientIds cs →
      i ∉ clientIds (l.foldl (fun cs j => clientsDelete cs j) cs) := by
  intro l
  induction l with
  | nil => intro cs h; exact h
  | cons j rest ih =>
      intro cs h
      apply ih
      intro hmem
      exact h (mem_clientIds_filter cs _ i hmem)

theorem foldl_delete_removes (i : Nat) :
    ∀ (l : List Nat) (cs : List AuthenticatedWebSocket),
      i ∈ l →
      i ∉ clientIds (l.foldl (fun cs j => clientsDelete cs j) cs) := by
  intro l
  induction l with
  | nil => intro cs h; cases h
  | cons j rest ih =>
      intro cs h
      rw [List.foldl_cons]
      rcases List.mem_cons.mp h with h1 | h1
      · subst h1
        apply foldl_delete_preserves_not_mem
        intro hmem
        rcases List.mem_map.mp hmem with ⟨c, hcmem, rfl⟩
        have := (List.mem_filter.mp hcmem).2
        simp at this
      · exact ih _ h1

theorem sendLoop_no_failures (p : AuthenticatedWebSocket → Bool) (data : String)
    (fails : Nat → Bool) (hf : ∀ j, fails j = false) :
    ∀ clients : List AuthenticatedWebSocket,
      sendLoop p data fails clients
        = ((clients.filter p).map (fun c => (c.id, data)), []) := by
  intro clients
  induction clients with
  | nil => rfl
  | cons a rest ih =>
      simp only [sendLoop, ih, List.filter_cons]
      by_cases hp : p a
      · simp [hp, hf a.id]
      · simp [hp]

/-- Claim C7: a transport write failure to one recipient during a dispatch is
isolated: the dispatch still returns normally to its caller (never an error),
a non-failing registered connection receives exactly the same deliveries as in
the failure-free dispatch, a failing selected recipient is evicted from the
registry by its error handler, and with no failures at all the delivered
writes are exactly those of `dispatch`. -/
theorem dispatch_write_failure_isolated (clients : List AuthenticatedWebSocket)
    (e : DomainEvent) (ts : String) (fails : Nat → Bool)
    (c : AuthenticatedWebSocket)
    (hnd : (clients.map (fun x => x.id)).Nodup) (hc : c ∈ clients) :
    dispatchWithFailures clients e ts fails
      = Except.ok (deliveredWrites clients e ts fails,
          registryAfterDispatch clients e ts fails)
    ∧ (fails c.id = false →
        (deliveredWrites clients e ts fails).countP (fun w => decide (w.1 = c.id))
          = (dispatch clients e ts).countP (fun w => decide (w.1 = c.id)))
    ∧ (fails c.id = true → recipientRole e c = true →
        c.id ∉ clientIds (registryAfterDispatch clients e ts fails))
    ∧ ((∀ j, fails j = false) →
        deliveredWrites clients e ts fails = dispatch clients e ts) := by
  refine ⟨rfl, ?_, ?_, ?_⟩
  · intro hnf
    have h1 := sendLoop_countP (recipientRole e) (stringify (eventMessage e ts))
      fails clients c hnd hc
    have h2 := countP_writes (recipientRole e) (stringify (eventMessage e ts))
      clients c hnd hc
    rw [deliveredWrites, h1, dispatch_eq_filter_map, h2, hnf]
    simp
  · intro hf hp
    apply foldl_delete_removes
    exact sendLoop_mem_failed (recipientRole e) (stringify (eventMessage e ts))
      fails clients c hc hp hf
  · intro hall
    rw [deliveredWrites,
      sendLoop_no_failures (recipientRole e) (stringify (eventMessage e ts)) fails hall,
      dispatch_eq_filter_map]

theorem dispatch_write_failure_isolated_witness :
    (([⟨1, true, some ServerType.server, "a", true, WebSocket.OPEN⟩,
       ⟨2, true, some ServerType.server, "b", true, WebSocket.OPEN⟩] :
        List AuthenticatedWebSocket).map (fun x => x.id)).Nodup
    ∧ ((fun j => decide (j = 1)) 2 = false
        → (deliveredWrites
            [⟨1, true, some ServerType.server, "a", true, WebSocket.OPEN⟩,
             ⟨2, true, some ServerType.server, "b", true, WebSocket.OPEN⟩]
            (DomainEvent.GrantChanged "u") "t" (fun j => decide (j = 1))).countP
              (fun w => decide (w.1 = 2))
          = (dispatch
              [⟨1, true, some ServerType.server, "a", true, WebSocket.OPEN⟩,
               ⟨2, true, some ServerType.server, "b", true, WebSocket.OPEN⟩]
              (DomainEvent.GrantChanged "u") "t").countP (fun w => decide (w.1 = 2)))
    ∧ ((fun j => decide (j = 1)) 1 = true
        → recipientRole (DomainEvent.GrantChanged "u")
            ⟨1, true, some ServerType.server, "a", true, WebSocket.OPEN⟩ = true
        → 1 ∉ clientIds (registryAfterDispatch
            [⟨1, true, some ServerType.server, "a", true, WebSocket.OPEN⟩,
             ⟨2, true, some ServerType.server, "b", true, WebSocket.OPEN⟩]
            (DomainEvent.GrantChanged "u") "t" (fun j => decide (j = 1)))) := by
  refine ⟨by decide, ?_, ?_⟩
  · exact (dispatch_write_failure_isolated
      [⟨1, true, some ServerType.server, "a", true, WebSocket.OPEN⟩,
       ⟨2, true, some ServerType.server, "b", true, WebSocket.OPEN⟩]
      (DomainEvent.GrantChanged "u") "t" (fun j => decide (j = 1))
      ⟨2, true, some ServerType.server, "b", true, WebSocket.OPEN⟩
      (by decide) (by decide)).2.1
  · exact (dispatch_write_failure_isolated
      [⟨1, true, some ServerType.server, "a", true, WebSocket.OPEN⟩,
       ⟨2, true, some ServerType.server, "b", true, WebSocket.OPEN⟩]
      (DomainEvent.GrantChanged "u") "t" (fun j => decide (j = 1))
      ⟨1, true, some ServerType.server, "a", true, WebSocket.OPEN⟩
      (by decide) (by decide)).2.2.1

/-- One row of the punishments store, in its API shape (`Punishment` of the
shared types module). -/
structure Punishment where
  id : Nat
  playerUuid : String
  punishedByUuid : Option String
  punishedByName : Option String
  type : String
  reason : Option String
  durationSeconds : Option Nat
  createdAt : Option String
  expiresAt : Option String
  isActive : Bool
  executed : Bool
deriving DecidableEq, Repr

/-- Result shape returned by `PunishmentService.execute`. -/
structure ExecuteResult where
  success : Bool
  message : String
  kicked : Bool
deriving DecidableEq, Repr

namespace PunishmentService

/-- Source `findById`: `SELECT * FROM punishments WHERE id = ?`, first row or
none.  The store is modelled as the list of rows. -/
def findById (db : List Punishment) (punishmentId : Nat) : Option Punishment :=
  db.find? (fun p => decide (p.id = punishmentId))

/-- Source `execute(punishmentId)`: look the punishment up (throwing a
not-found error when absent); kick through the proxy exactly for the `BAN`,
`TEMPBAN` and `KICK` types via `notifyPunishmentExecute`; mark the row
executed (`UPDATE punishments SET executed = 1 WHERE id = ?`); return success
with `kicked` reporting whether the kick notification was dispatched.
Returns the updated store, the writes performed and the result. -/
def execute (db : List Punishment) (clients : List AuthenticatedWebSocket)
    (ts : String) (punishmentId : Nat) :
    Except String (List Punishment × List (Nat × String) × ExecuteResult) :=
  match findById db punishmentId with
  | none =>
      Except.error ("Punishment with ID " ++ toString punishmentId ++ " not found")
  | some punishment =>
      let shouldKick := decide (punishment.type = "BAN")
        || decide (punishment.type = "TEMPBAN")
        || decide (punishment.type = "KICK")
      let writes := if shouldKick then
          notifyPunishmentExecute clients punishment.playerUuid punishment.type
            punishment.reason ts
        else []
      let db2 := db.map (fun p =>
        if p.id = punishmentId then { p with executed := true } else p)
      Except.ok (db2, writes,
        { success := true, message := "Punishment executed successfully",
          kicked := shouldKick })

end PunishmentService

theorem findById_mark_executed (db : List Punishment) (pid : Nat) :
    PunishmentService.findById
        (db.map (fun p => if p.id = pid then { p with executed := true } else p)) pid
      = (PunishmentService.findById db pid).map
          (fun p => if p.id = pid then { p with executed := true } else p) := by
  induction db with
  | nil => rfl
  | cons a rest ih =>
      by_cases ha : a.id = pid
      · simp only [PunishmentService.findById, List.map_cons]
        rw [List.find?_cons_of_pos, List.find?_cons_of_pos]
        · simp
        · simp [ha]
        · simp only [if_pos ha]
          simp [ha]
      · simp only [PunishmentService.findById, List.map_cons]
        rw [List.find?_cons_of_neg, List.find?_cons_of_neg]
        · exact ih
        · simp [ha]
        · simp only [if_neg ha]
          simp [ha]

/-- Claim C10: `PunishmentService.execute` of an existing punishment
dispatches one `PUNISH_EXECUTE` frame to each open proxy connection exactly
when the punishment's type is `BAN`, `TEMPBAN` or `KICK` and sends nothing to
anyone otherwise; in every case it marks the punishment executed in the store
and returns success with `kicked` equal to whether the notification was
dispatched; for a missing punishment id it raises not-found and performs no
writes. -/
theorem punishment_execute_spec (db : List Punishment)
    (clients : List AuthenticatedWebSocket) (ts : String) (punishmentId : Nat)
    (hnd : (clients.map (fun x => x.id)).Nodup) :
    (PunishmentService.findById db punishmentId = none →
      PunishmentService.execute db clients ts punishmentId
        = Except.error ("Punishment with ID " ++ toString punishmentId ++ " not found"))
    ∧ (∀ pu, PunishmentService.findById db punishmentId = some pu →
        ∃ db2 writes res,
          PunishmentService.execute db clients ts punishmentId
            = Except.ok (db2, writes, res)
          ∧ res.success = true
          ∧ (res.kicked = true ↔
              (pu.type = "BAN" ∨ pu.type = "TEMPBAN" ∨ pu.type = "KICK"))
          ∧ (∀ c ∈ clients, writes.countP (fun w => decide (w.1 = c.id))
              = if (pu.type = "BAN" ∨ pu.type = "TEMPBAN" ∨ pu.type = "KICK")
                  ∧ c.serverType = some ServerType.proxy
                  ∧ c.readyState = WebSocket.OPEN
                then 1 else 0)
          ∧ (¬(pu.type = "BAN" ∨ pu.type = "TEMPBAN" ∨ pu.type = "KICK") →
              writes = [])
          ∧ PunishmentService.findById db2 punishmentId
              = some { pu with executed := true }) := by
  constructor
  · intro hnone
    simp only [PunishmentService.execute, hnone]
  · intro pu hsome
    have hpid : pu.id = punishmentId := by
      have := List.find?_some hsome
      simpa using this
    refine ⟨db.map (fun p =>
        if p.id = punishmentId then { p with executed := true } else p),
      (if (decide (pu.type = "BAN") || decide (pu.type = "TEMPBAN")
          || decide (pu.type = "KICK")) = true then
        notifyPunishmentExecute clients pu.playerUuid pu.type pu.reason ts
      else []),
      { success := true, message := "Punishment executed successfully",
        kicked := decide (pu.type = "BAN") || decide (pu.type = "TEMPBAN")
          || decide (pu.type = "KICK") },
      ?_, rfl, ?_, ?_, ?_, ?_⟩
    · simp only [PunishmentService.execute, hsome]
    · simp [Bool.or_eq_true, decide_eq_true_eq, or_assoc]
    · intro c hc
      by_cases hk : pu.type = "BAN" ∨ pu.type = "TEMPBAN" ∨ pu.type = "KICK"
      · have hkb : (decide (pu.type = "BAN") || decide (pu.type = "TEMPBAN")
            || decide (pu.type = "KICK")) = true := by
          rcases hk with h | h | h <;> simp [h]
        rw [if_pos hkb]
        have hcount := countP_writes
          (fun x => decide (x.serverType = some ServerType.proxy)
            && decide (x.readyState = WebSocket.OPEN))
          (stringify (WsMessage.PUNISH_EXECUTE pu.playerUuid pu.type pu.reason ts))
          clients c hnd hc
        simp only [notifyPunishmentExecute, sendToProxy]
        rw [hcount]
        by_cases hpx : c.serverType = some ServerType.proxy
        · by_cases hop : c.readyState = WebSocket.OPEN
          · simp [hpx, hop, hk]
          · simp [hpx, hop]
        · simp [hpx]
      · have hkb : (decide (pu.type = "BAN") || decide (pu.type = "TEMPBAN")
            || decide (pu.type = "KICK")) = false := by
          push_neg at hk
          simp [hk.1, hk.2.1, hk.2.2]
        rw [if_neg (by simp [hkb])]
        simp [hk]
    · intro hk
      have hkb : (decide (pu.type = "BAN") || decide (pu.type = "TEMPBAN")
          || decide (pu.type = "KICK")) = false := by
        push_neg at hk
        simp [hk.1, hk.2.1, hk.2.2]
      rw [if_neg (by simp [hkb])]
    · rw [findById_mark_executed, hsome]
      simp [hpid]

theorem punishment_execute_spec_witness :
    (([⟨9, true, some ServerType.proxy, "main-proxy", true, WebSocket.OPEN⟩] :
        List AuthenticatedWebSocket).map (fun x => x.id)).Nodup
    ∧ (PunishmentService.execute
        [⟨1, "u1", none, none, "BAN", some "r", none, none, none, true, false⟩]
        [⟨9, true, some ServerType.proxy, "main-proxy", true, WebSocket.OPEN⟩]
        "t0" 2
        = Except.error ("Punishment with ID " ++ toString 2 ++ " not found"))
    ∧ (∃ db2 writes res,
        PunishmentService.execute
          [⟨1, "u1", none, none, "BAN", some "r", none, none, none, true, false⟩]
          [⟨9, true, some ServerType.proxy, "main-proxy", true, WebSocket.OPEN⟩]
          "t0" 1
          = Except.ok (db2, writes, res)
        ∧ res.success = true
        ∧ (res.kicked = true ↔
            ((Punishment.mk 1 "u1" none none "BAN" (some "r") none none none
                true false).type = "BAN"
              ∨ (Punishment.mk 1 "u1" none none "BAN" (some "r") none none none
                  true false).type = "TEMPBAN"
              ∨ (Punishment.mk 1 "u1" none none "BAN" (some "r") none none none
                  true false).type = "KICK"))
        ∧ (∀ c ∈ ([⟨9, true, some ServerType.proxy, "main-proxy", true,
              WebSocket.OPEN⟩] : List AuthenticatedWebSocket),
            writes.countP (fun w => decide (w.1 = c.id))
              = if ((Punishment.mk 1 "u1" none none "BAN" (some "r") none none none
                      true false).type = "BAN"
                    ∨ (Punishment.mk 1 "u1" none none "BAN" (some "r") none none
                        none true false).type = "TEMPBAN"
                    ∨ (Punishment.mk 1 "u1" none none "BAN" (some "r") none none
                        none true false).type = "KICK")
                  ∧ c.serverType = some ServerType.proxy
                  ∧ c.readyState = WebSocket.OPEN
                then 1 else 0)
        ∧ (¬((Punishment.mk 1 "u1" none none "BAN" (some "r") none none none
                true false).type = "BAN"
              ∨ (Punishment.mk 1 "u1" none none "BAN" (some "r") none none none
                  true false).type = "TEMPBAN"
              ∨ (Punishment.mk 1 "u1" none none "BAN" (some "r") none none none
                  true false).type = "KICK") →
            writes = [])
        ∧ PunishmentService.findById db2 1
            = some { Punishment.mk 1 "u1" none none "BAN" (some "r") none none none
                true false with executed := true }) :=
  ⟨by decide,
   (punishment_execute_spec
     [⟨1, "u1", none, none, "BAN", some "r", none, none, none, true, false⟩]
     [⟨9, true, some ServerType.proxy, "main-proxy", true, WebSocket.OPEN⟩]
     "t0" 2 (by decide)).1 (by decide),
   (punishment_execute_spec
     [⟨1, "u1", none, none, "BAN", some "r", none, none, none, true, false⟩]
     [⟨9, true, some ServerType.proxy, "main-proxy", true, WebSocket.OPEN⟩]
     "t0" 1 (by decide)).2
     (Punishment.mk 1 "u1" none none "BAN" (some "r") none none none true false)
     (by decide)⟩
